import Mathlib

/-!
Verification of the multi-tenant WhatsApp connection lifecycle manager.

Two implementations of the core live in the repository and are embedded here:

* the Baileys-based session class (source file src/unnamed/part_008,
  class WhatsAppClient, together with waitForConnected from src/src/util/index.ts
  and WhatsAppManager from src/src/whatsapp/WhatsAppManager.ts), modelled in
  the WAClient namespace; and
* the whatsapp-web.js based service (src/src/services/whatsapp.service.ts,
  class WhatsAppService, with the part_019 variant of ensureClientReady),
  modelled in the Service namespace.

External collaborators (the wire protocol socket, Redis, MongoDB, the QR
renderer, websocket broadcast) are modelled as oracles or logs; everything
the repository code itself computes is translated directly.
-/

/-- Generic list helper: a boolean prefix test on character lists, used to
model the redis key pattern match of clearAuthState (redis.keys with the
pattern wa:clientId:*). -/
def strHasPre : List Char → List Char → Bool
  | [], _ => true
  | _ :: _, [] => false
  | p :: ps, c :: cs => (p == c) && strHasPre ps cs

/-- Helper lemma: filtering a list by the negation of a boolean predicate
leaves no element satisfying the predicate. -/
theorem any_filter_not_eq_false (p : α → Bool) (l : List α) :
    (l.filter (fun a => !(p a))).any p = false := by
  induction l with
  | nil => rfl
  | cons a l ih =>
    by_cases h : p a = true
    · simp [List.filter, h, ih]
    · simp only [Bool.not_eq_true] at h
      simp [List.filter, h, List.any, ih]

namespace WAClient

/-- Status values of the Baileys-based session, copied from the WAStatus
union type of src/unnamed/part_008. -/
inductive WAStatus
  | idle
  | starting
  | pairing_code
  | connecting
  | connected
  | disconnected
  | restarting
  | logged_out
  | error
deriving DecidableEq, Repr

/-- Numeric Baileys DisconnectReason codes referenced by handleDisconnect. -/
def loggedOutCode : Nat := 401

/-- Baileys DisconnectReason.badSession. -/
def badSessionCode : Nat := 500

/-- Baileys DisconnectReason.restartRequired. -/
def restartRequiredCode : Nat := 515

/-- Baileys DisconnectReason.connectionClosed. -/
def connectionClosedCode : Nat := 428

/-- Baileys DisconnectReason.connectionLost (shares 408 with timedOut). -/
def connectionLostCode : Nat := 408

/-- Baileys DisconnectReason.timedOut (shares 408 with connectionLost). -/
def timedOutCode : Nat := 408

/-- State of one WhatsAppClient instance (fields of the class in
src/unnamed/part_008).  The redis keyspace relevant to this tenant is carried
in the state so that clearAuthState can be modelled; sockPresent models
whether this.sock is non-null. -/
structure ClientState where
  clientId : String
  status : WAStatus
  pairingCode : Option String
  errReason : Option String
  errMessage : Option String
  sockPresent : Bool
  redisKeys : List String
deriving DecidableEq, Repr

/-- Redis key pattern prefix for one tenant, from clearAuthState
(wa:clientId:*) and useRedisAuthState. -/
def waKeyPat (id : String) : String := "wa:" ++ id ++ ":"

/-- Whether a persisted credential record exists for the tenant: some redis
key matches the wa:clientId:* pattern. -/
def credExists (s : ClientState) : Bool :=
  s.redisKeys.any (fun k => strHasPre (waKeyPat s.clientId).data k.data)

/-- WhatsAppClient.start: sets status starting (setStatus), drops and
recreates the socket, and loads the auth state for the SAME clientId via
useRedisAuthState, so the credential record is reused; the redis keyspace is
not modified by start itself. -/
def start (s : ClientState) : ClientState :=
  { s with status := .starting, sockPresent := true }

/-- WhatsAppClient.clearAuthState: deletes every redis key matching
wa:clientId:*, then cleans the socket.  The redisOk flag models whether the
redis operations succeed; on failure the catch block leaves everything
unchanged. -/
def clearAuthState (redisOk : Bool) (s : ClientState) : ClientState :=
  if redisOk then
    { s with
      redisKeys := s.redisKeys.filter
        (fun k => !(strHasPre (waKeyPat s.clientId).data k.data)),
      sockPresent := false }
  else s

/-- Result of handleDisconnect: the client state after the handler's
synchronous mutations, the number of state-machine restarts performed
(reconnect() calls that reached start()), and the error the handler's
promise rejects with when reconnect() throws its no-socket guard — in that
case the mutations already performed stand and no restart happens. -/
structure DisconnectResult where
  state : ClientState
  reconnects : Nat
  thrownErr : Option String
deriving DecidableEq, Repr

/-- WhatsAppClient.handleDisconnect.  The argument err is the optional
lastDisconnect error: none when no error object is present (the handler
returns false immediately); some code carries the optional Boom statusCode.
Fatal codes (loggedOut 401, badSession 500) set status error with reason
badSession and clear the auth state; the transient codes (restartRequired
515, connectionClosed 428, connectionLost / timedOut 408) and the default
branch (unknown reasons, including a missing statusCode) all call
reconnect().  reconnect() first runs its guard: when this.sock is null it
throws the not-found error without restarting anything; with a live socket
its synchronous effect is start(). -/
def handleDisconnect (redisOk : Bool) (err : Option (Option Nat))
    (s : ClientState) : DisconnectResult :=
  match err with
  | none => { state := s, reconnects := 0, thrownErr := none }
  | some code =>
    if code = some loggedOutCode ∨ code = some badSessionCode then
      { state := clearAuthState redisOk
          { s with
            status := .error,
            errReason := some "badSession",
            errMessage := some "Session corrupted, please re-authenticate" },
        reconnects := 0, thrownErr := none }
    else if s.sockPresent then
      { state := start s, reconnects := 1, thrownErr := none }
    else
      { state := s, reconnects := 0,
        thrownErr := some ("Client " ++ s.clientId ++ " not found") }

/-- Whether a disconnect error triggers the reconnect path of
handleDisconnect (transient or unknown reason, per the switch statement). -/
def isTransient (err : Option (Option Nat)) : Bool :=
  match err with
  | none => false
  | some code => !(code == some loggedOutCode || code == some badSessionCode)

/-- Connection field of a Baileys connection.update payload. -/
inductive ConnState
  | connecting
  | connOpen
  | connClose
deriving DecidableEq, Repr

/-- One connection.update payload: optional qr string, optional connection
state, and (used by the close branch) the optional lastDisconnect error. -/
structure ConnUpdate where
  qr : Option String
  connection : Option ConnState
  lastDisconnectErr : Option (Option Nat)
deriving DecidableEq, Repr

/-- WhatsAppClient.handleConnectionUpdate.  The qr branch fires only when a
qr is present, the socket exists and this.pairingCode is unset; the active
code renders the qr and emits it as a pairing_code status event but never
assigns this.pairingCode (the assignment is commented out in the source).
The open branch sets status connected and then clears this.pairingCode.  The
close branch delegates to handleDisconnect and yields its disconnect
result. -/
def handleConnectionUpdate (redisOk : Bool) (u : ConnUpdate)
    (s : ClientState) : DisconnectResult :=
  let s1 :=
    match u.qr with
    | some _ =>
      if s.sockPresent ∧ s.pairingCode = none then
        { s with status := .pairing_code }
      else s
    | none => s
  let s2 :=
    if u.connection = some ConnState.connecting then
      { s1 with status := .connecting }
    else s1
  let s3 :=
    if u.connection = some ConnState.connOpen ∧ s2.sockPresent then
      { s2 with status := .connected, pairingCode := none }
    else s2
  if u.connection = some ConnState.connClose then
    handleDisconnect redisOk u.lastDisconnectErr s3
  else { state := s3, reconnects := 0, thrownErr := none }

/-- Fold a list of connection.update payloads over a client state. -/
def runUpdates (redisOk : Bool) (us : List ConnUpdate) (s : ClientState) :
    ClientState :=
  us.foldl (fun a u => (handleConnectionUpdate redisOk u a).state) s

/-- Fresh WhatsAppClient state as built by the class constructor: status
idle, no pairing code, no socket. -/
def initClient (id : String) (keys : List String) : ClientState :=
  { clientId := id, status := .idle, pairingCode := none, errReason := none,
    errMessage := none, sockPresent := false, redisKeys := keys }

/-- Default timeout of waitForConnected in src/src/util/index.ts
(timeoutMs = 60000), used with its default both by reconnect() and by the
initial-login call site in clients.controller.ts. -/
def waitForConnectedDefaultMs : Nat := 60000

/-- Timeout bounding the readiness wait inside WhatsAppClient.reconnect
(waitForConnected is called with its default timeout). -/
def reconnectWaitMs : Nat := waitForConnectedDefaultMs

/-- Timeout bounding the readiness wait of an initial login
(clients.controller.ts loginClient also calls waitForConnected with its
default timeout). -/
def initialLoginWaitMs : Nat := waitForConnectedDefaultMs

/-- Result of waitForConnected: resolve on a connected event, reject on a
logged_out event, reject with a connection timeout otherwise. -/
inductive WaitConnRes
  | okConnected
  | errLoggedOut
  | errTimeout
deriving DecidableEq, Repr

/-- The waitForConnected helper of src/src/util/index.ts: returns at once if
the state is already connected, otherwise resolves or rejects on the first
connected or logged_out status event emitted before the deadline; evs lists
the status events emitted within the timeout window, in order.  When no such
event arrives the timer rejects with a connection timeout, and no status
change is performed by the wait itself. -/
def waitForConnected (s : ClientState) (evs : List WAStatus) : WaitConnRes :=
  if s.status = .connected then .okConnected
  else
    match evs.find?
        (fun e => decide (e = .connected) || decide (e = .logged_out)) with
    | some WAStatus.connected => .okConnected
    | some _ => .errLoggedOut
    | none => .errTimeout

end WAClient

/-- Status vocabulary of the specification state machine (spec section 4.2),
used to compare the code statuses against the spec by refinement. -/
inductive SpecStatus
  | IDLE
  | INITIALIZING
  | AWAITING_PAIRING
  | CONNECTING
  | CONNECTED
  | DISCONNECTED
  | AUTH_FAILED
  | ERROR
  | TIMEOUT
  | LOGGED_OUT
deriving DecidableEq, Repr

/-- Modelled from the spec: the abstraction of the WAClient statuses into the
spec state machine of section 4.2 (starting and restarting are the spec
INITIALIZING phase, pairing_code is AWAITING_PAIRING).  The code has no
status that maps to the spec AUTH_FAILED state. -/
def specStatusOf : WAClient.WAStatus → SpecStatus
  | .idle => .IDLE
  | .starting => .INITIALIZING
  | .pairing_code => .AWAITING_PAIRING
  | .connecting => .CONNECTING
  | .connected => .CONNECTED
  | .disconnected => .DISCONNECTED
  | .restarting => .INITIALIZING
  | .logged_out => .LOGGED_OUT
  | .error => .ERROR

/-- Sample connected session of tenant t1 holding one persisted credential
key, used as the concrete input of the disconnect counterexamples. -/
def sampleConnected : WAClient.ClientState :=
  { clientId := "t1", status := .connected, pairingCode := none,
    errReason := none, errMessage := none, sockPresent := true,
    redisKeys := ["wa:t1:creds"] }

/-- Sample session of tenant t1 whose socket has already been cleaned (this
sock is null), used to exercise the no-socket guard of reconnect. -/
def sampleNoSock : WAClient.ClientState :=
  { clientId := "t1", status := .disconnected, pairingCode := none,
    errReason := none, errMessage := none, sockPresent := false,
    redisKeys := ["wa:t1:creds"] }

/-- C1 counterexample: a transient disconnect (connectionClosed, 428) of a
connected session triggers exactly one reconnect, whose synchronous effect
is start(); when no further connection event arrives, waitForConnected
rejects with a connection timeout and the session is left in status
starting, which is neither CONNECTED nor ERROR — the claim that the session
settles into CONNECTED or ERROR after the single reconnect attempt is false
on this input. -/
theorem reconnect_timeout_leaves_starting_status :
    (WAClient.handleDisconnect true (some (some WAClient.connectionClosedCode))
        sampleConnected).reconnects = 1 ∧
    (WAClient.handleDisconnect true (some (some WAClient.connectionClosedCode))
        sampleConnected).state.status = WAClient.WAStatus.starting ∧
    WAClient.waitForConnected
      (WAClient.handleDisconnect true (some (some WAClient.connectionClosedCode))
        sampleConnected).state [] = WAClient.WaitConnRes.errTimeout ∧
    WAClient.WAStatus.starting ≠ WAClient.WAStatus.connected ∧
    WAClient.WAStatus.starting ≠ WAClient.WAStatus.error := by
  refine ⟨rfl, rfl, rfl, by decide, by decide⟩

/-- C1 (amended): per disconnect event, handleDisconnect restarts the state
machine at most once; on a transient or unknown reason it calls reconnect()
once and never again, and reconnect() restarts via start() — which keeps the
clientId and the persisted credential keys, so the existing credential
record is reused — exactly when the socket is live, bounded by the same
60-second waitForConnected timeout as the readiness wait of an initial
login; when the socket is null, reconnect() instead throws its not-found
error without restarting and the state is unchanged; when a restarted
socket reports open the session reaches CONNECTED, but when the reconnect
wait times out with no event it rejects without setting an ERROR status. -/
theorem transient_disconnect_reconnects_at_most_once
    (redisOk : Bool) (err : Option (Option Nat)) (s : WAClient.ClientState) :
    (WAClient.handleDisconnect redisOk err s).reconnects ≤ 1 ∧
    (WAClient.isTransient err = true → s.sockPresent = true →
      WAClient.handleDisconnect redisOk err s =
        { state := WAClient.start s, reconnects := 1, thrownErr := none }) ∧
    (WAClient.isTransient err = true → s.sockPresent = false →
      WAClient.handleDisconnect redisOk err s =
        { state := s, reconnects := 0,
          thrownErr := some ("Client " ++ s.clientId ++ " not found") }) ∧
    ((WAClient.start s).redisKeys = s.redisKeys ∧
      (WAClient.start s).clientId = s.clientId ∧
      (WAClient.start s).status = WAClient.WAStatus.starting) ∧
    WAClient.reconnectWaitMs = WAClient.initialLoginWaitMs ∧
    (∀ u : WAClient.ConnUpdate, ∀ s2 : WAClient.ClientState,
      u.connection = some WAClient.ConnState.connOpen →
      s2.sockPresent = true →
      (WAClient.handleConnectionUpdate redisOk u s2).state.status =
        WAClient.WAStatus.connected) ∧
    (∀ s2 : WAClient.ClientState, s2.status ≠ WAClient.WAStatus.connected →
      WAClient.waitForConnected s2 [] = WAClient.WaitConnRes.errTimeout) := by
  refine ⟨?_, ?_, ?_, ⟨rfl, rfl, rfl⟩, rfl, ?_, ?_⟩
  · cases err with
    | none => simp [WAClient.handleDisconnect]
    | some code =>
      by_cases h : code = some WAClient.loggedOutCode ∨
          code = some WAClient.badSessionCode
      · simp [WAClient.handleDisconnect, h]
      · by_cases hs : s.sockPresent = true <;>
          simp [WAClient.handleDisconnect, h, hs]
  · intro h hsock
    cases err with
    | none => simp [WAClient.isTransient] at h
    | some code =>
      simp only [WAClient.isTransient, Bool.not_eq_true', Bool.or_eq_false_iff,
        beq_eq_false_iff_ne, ne_eq] at h
      simp [WAClient.handleDisconnect, h.1, h.2, hsock]
  · intro h hsock
    cases err with
    | none => simp [WAClient.isTransient] at h
    | some code =>
      simp only [WAClient.isTransient, Bool.not_eq_true', Bool.or_eq_false_iff,
        beq_eq_false_iff_ne, ne_eq] at h
      simp [WAClient.handleDisconnect, h.1, h.2, hsock]
  · intro u s2 hconn hsock
    have h1 : ¬(u.connection = some WAClient.ConnState.connecting) := by
      rw [hconn]; simp
    have h2 : ¬(u.connection = some WAClient.ConnState.connClose) := by
      rw [hconn]; simp
    cases hq : u.qr with
    | none =>
      simp [WAClient.handleConnectionUpdate, hq, h1, h2, hconn, hsock]
    | some q =>
      cases hpc : s2.pairingCode with
      | none =>
        simp [WAClient.handleConnectionUpdate, hq, h1, h2, hconn, hsock, hpc]
      | some pc =>
        simp [WAClient.handleConnectionUpdate, hq, h1, h2, hconn, hsock, hpc]
  · intro s2 h
    simp [WAClient.waitForConnected, h]

/-- C1 witness: the amended theorem applied to a concrete transient
disconnect (restartRequired, 515) of the sample connected session, to a
concrete unknown disconnect of the cleaned-socket session (the reconnect
guard throws and no restart happens), and to a concrete open update on a
session with a live socket. -/
theorem transient_disconnect_reconnects_at_most_once_witness :
    WAClient.isTransient (some (some WAClient.restartRequiredCode)) = true ∧
    sampleConnected.sockPresent = true ∧
    WAClient.handleDisconnect true (some (some WAClient.restartRequiredCode))
        sampleConnected =
      { state := WAClient.start sampleConnected, reconnects := 1,
        thrownErr := none } ∧
    sampleNoSock.sockPresent = false ∧
    WAClient.handleDisconnect true (some (some WAClient.timedOutCode))
        sampleNoSock =
      { state := sampleNoSock, reconnects := 0,
        thrownErr := some "Client t1 not found" } ∧
    (WAClient.handleConnectionUpdate true
      ⟨none, some WAClient.ConnState.connOpen, none⟩
      (WAClient.start sampleConnected)).state.status =
        WAClient.WAStatus.connected ∧
    WAClient.waitForConnected (WAClient.start sampleConnected) [] =
      WAClient.WaitConnRes.errTimeout :=
  ⟨by decide,
   by decide,
   (transient_disconnect_reconnects_at_most_once true
      (some (some WAClient.restartRequiredCode)) sampleConnected).2.1
      (by decide) (by decide),
   by decide,
   (transient_disconnect_reconnects_at_most_once true
      (some (some WAClient.timedOutCode)) sampleNoSock).2.2.1
      (by decide) (by decide),
   (transient_disconnect_reconnects_at_most_once true
      (some (some WAClient.restartRequiredCode)) sampleConnected).2.2.2.2.2.1
      ⟨none, some WAClient.ConnState.connOpen, none⟩
      (WAClient.start sampleConnected) rfl rfl,
   (transient_disconnect_reconnects_at_most_once true
      (some (some WAClient.restartRequiredCode)) sampleConnected).2.2.2.2.2.2
      (WAClient.start sampleConnected) (by decide)⟩

/-- C2 counterexample: a fatal disconnect (loggedOut, 401) of the sample
connected session leaves the session in the code status error — which
abstracts to the spec state ERROR, not AUTH_FAILED — so the claim that the
session transitions to AUTH_FAILED is false on this input (the code has no
AUTH_FAILED state on this path; it reuses error with reason badSession). -/
theorem fatal_disconnect_status_error_not_auth_failed :
    (WAClient.handleDisconnect true (some (some WAClient.loggedOutCode))
        sampleConnected).state.status = WAClient.WAStatus.error ∧
    specStatusOf
      (WAClient.handleDisconnect true (some (some WAClient.loggedOutCode))
        sampleConnected).state.status = SpecStatus.ERROR ∧
    SpecStatus.ERROR ≠ SpecStatus.AUTH_FAILED := by
  refine ⟨rfl, rfl, by decide⟩

/-- C2 (amended): on a fatal disconnect reason (loggedOut 401 or badSession
500), when redis is reachable the session performs no reconnect attempt,
moves to status error with reason badSession and the re-authentication
message, and clearAuthState deletes every persisted credential key of the
tenant, so credExists is false afterwards. -/
theorem fatal_disconnect_clears_creds_no_retry
    (s : WAClient.ClientState) (code : Nat)
    (h : code = WAClient.loggedOutCode ∨ code = WAClient.badSessionCode) :
    (WAClient.handleDisconnect true (some (some code)) s).reconnects = 0 ∧
    (WAClient.handleDisconnect true (some (some code)) s).state.status =
      WAClient.WAStatus.error ∧
    (WAClient.handleDisconnect true (some (some code)) s).state.errReason =
      some "badSession" ∧
    (WAClient.handleDisconnect true (some (some code)) s).state.errMessage =
      some "Session corrupted, please re-authenticate" ∧
    WAClient.credExists
      (WAClient.handleDisconnect true (some (some code)) s).state = false := by
  have key : WAClient.handleDisconnect true (some (some code)) s =
      { state := WAClient.clearAuthState true
          { s with
            status := .error,
            errReason := some "badSession",
            errMessage := some "Session corrupted, please re-authenticate" },
        reconnects := 0, thrownErr := none } := by
    rcases h with h | h <;> simp [WAClient.handleDisconnect, h]
  rw [key]
  refine ⟨rfl, rfl, rfl, rfl, ?_⟩
  simp only [WAClient.credExists, WAClient.clearAuthState, if_pos rfl]
  exact any_filter_not_eq_false _ _

/-- C2 witness: the amended theorem applied to the sample connected session
and the concrete fatal code 401. -/
theorem fatal_disconnect_clears_creds_no_retry_witness :
    (WAClient.loggedOutCode = WAClient.loggedOutCode ∨
      WAClient.loggedOutCode = WAClient.badSessionCode) ∧
    WAClient.credExists
      (WAClient.handleDisconnect true (some (some WAClient.loggedOutCode))
        sampleConnected).state = false :=
  ⟨Or.inl rfl,
   (fatal_disconnect_clears_creds_no_retry sampleConnected
      WAClient.loggedOutCode (Or.inl rfl)).2.2.2.2⟩

namespace Service

/-- Lookup in an association list keyed by strings, modelling the get method
of the Map fields of WhatsAppService (clients, qrCodes). -/
def mapGet : List (String × β) → String → Option β
  | [], _ => none
  | p :: m, k => if p.1 = k then some p.2 else mapGet m k

/-- Map.delete: all entries for the key are removed. -/
def mapDelete (m : List (String × β)) (k : String) : List (String × β) :=
  m.filter (fun p => !(decide (p.1 = k)))

/-- Map.set: the binding for the key is replaced (entry order is irrelevant
to mapGet). -/
def mapSet (m : List (String × β)) (k : String) (v : β) : List (String × β) :=
  (k, v) :: mapDelete m k

/-- Lookup after delete: the deleted key is gone, others are untouched. -/
theorem mapGet_mapDelete (m : List (String × β)) (k i : String) :
    mapGet (mapDelete m k) i = if i = k then none else mapGet m i := by
  induction m with
  | nil => by_cases h : i = k <;> simp [mapGet, mapDelete, h]
  | cons p m ih =>
    by_cases hk : p.1 = k
    · have hdel : mapDelete (p :: m) k = mapDelete m k := by
        simp [mapDelete, List.filter, hk]
      rw [hdel, ih]
      by_cases hik : i = k
      · simp [hik]
      · have hi : ¬(p.1 = i) := fun hpi => hik (hpi ▸ hk)
        simp [mapGet, hi, hik]
    · have hdel : mapDelete (p :: m) k = p :: mapDelete m k := by
        simp [mapDelete, List.filter, hk]
      rw [hdel]
      by_cases hi : p.1 = i
      · have hik : ¬(i = k) := fun h => hk (hi.trans h)
        simp [mapGet, hi, hik]
      · simp [mapGet, hi, ih]

/-- Lookup after set: the written key maps to the new value, others are
untouched. -/
theorem mapGet_mapSet (m : List (String × β)) (k i : String) (v : β) :
    mapGet (mapSet m k v) i = if i = k then some v else mapGet m i := by
  by_cases hik : i = k
  · simp [mapGet, mapSet, hik]
  · have hk : ¬(k = i) := fun h => hik h.symm
    simp [mapGet, mapSet, hik, hk, mapGet_mapDelete]

/-- State of the WhatsAppService instance: the two in-memory Maps, the
availability of the MongoStore, the set of persisted session names in the
store, a counter producing fresh protocol-client handles (each handle is an
opaque identifier), and the latest status broadcast per client (the
observable surface of broadcastStatus). -/
structure ServiceState where
  clients : List (String × Nat)
  qrCodes : List (String × String)
  mongoAvailable : Bool
  sessions : List String
  nextHandle : Nat
  lastStatus : List (String × String)
deriving DecidableEq, Repr

/-- Result of one call to the external client.getState(): it resolves with a
state string, resolves with null, or throws. -/
inductive StateResult
  | ok (state : Option String)
  | threw
deriving DecidableEq, Repr

/-- Timeout constants of the CONSTANTS table, in milliseconds. -/
def INIT_TIMEOUT : Nat := 60000

/-- CONSTANTS.TIMEOUTS.READY_WAIT. -/
def READY_WAIT : Nat := 120000

/-- CONSTANTS.TIMEOUTS.CLOSE_OPERATION. -/
def CLOSE_OPERATION : Nat := 5000

/-- CONSTANTS.TIMEOUTS.CLOSE_DESTROY. -/
def CLOSE_DESTROY : Nat := 10000

/-- CONSTANTS.TIMEOUTS.CLOSE_SESSION. -/
def CLOSE_SESSION : Nat := 5000

/-- CONSTANTS.TIMEOUTS.CLOSE_ALL. -/
def CLOSE_ALL : Nat := 30000

/-- CONSTANTS.CONFIG.READY_CHECK_INTERVAL. -/
def READY_CHECK_INTERVAL : Nat := 1000

/-- WhatsAppService.getSessionName. -/
def getSessionName (clientId : String) : String := "RemoteAuth-" ++ clientId

/-- WhatsAppService.getStatus: NOT_INITIALIZED when the registry has no
entry; DISCONNECTED when getState throws; PAIRING when it resolves with
null; otherwise the raw state.  gs is the oracle giving each handle's
getState behaviour. -/
def getStatus (gs : Nat → StateResult) (st : ServiceState) (id : String) :
    String :=
  match mapGet st.clients id with
  | none => "NOT_INITIALIZED"
  | some h =>
    match gs h with
    | .threw => "DISCONNECTED"
    | .ok none => "PAIRING"
    | .ok (some s) => s

/-- WhatsAppService.isClientReady: false when the registry has no entry or
getState throws; otherwise whether the state is CONNECTED. -/
def isClientReady (gs : Nat → StateResult) (st : ServiceState)
    (id : String) : Bool :=
  match mapGet st.clients id with
  | none => false
  | some h =>
    match gs h with
    | .threw => false
    | .ok s => s = some "CONNECTED"

/-- MongoStore.sessionExists for this client: whether the store holds a
session document under the RemoteAuth session name. -/
def sessionExists (st : ServiceState) (id : String) : Bool :=
  st.sessions.any (fun sn => sn == getSessionName id)

/-- WhatsAppService.removeSession.  The two flags model the MongoStore calls
throwing (sessionExists, delete); every failure is caught and reported as
false, and a delete that throws is modelled as leaving the store unchanged.
Returns the updated state together with the boolean result: false when the
store is unavailable, a store call fails or no record exists; true when the
record existed and was deleted. -/
def removeSession (existsFails deleteFails : Bool) (st : ServiceState)
    (id : String) : ServiceState × Bool :=
  if !st.mongoAvailable then (st, false)
  else if existsFails then (st, false)
  else if !(sessionExists st id) then (st, false)
  else if deleteFails then (st, false)
  else
    ({ st with
        sessions := st.sessions.filter (fun sn => !(sn == getSessionName id)) },
      true)

/-- Behaviour of one close teardown step: its intrinsic duration in
milliseconds (a hang is a duration above the step timeout; Promise.race
caps the observed wait at the timeout), plus the failure flags of the
removeSession store calls. -/
structure CloseOracle where
  logoutDur : Nat
  destroyDur : Nat
  removeDur : Nat
  removeExistsFails : Bool
  removeDeleteFails : Bool
deriving DecidableEq, Repr

/-- WhatsAppService.close: no-op when the registry has no entry; otherwise
runs logout, destroy and removeSession, each under its own timeout with
failures swallowed (a removeSession that exceeds CLOSE_SESSION is modelled
as not applied to the store), and afterwards always deletes the in-memory
client and qr-code entries. -/
def close (gs : Nat → StateResult) (o : CloseOracle) (st : ServiceState)
    (id : String) : ServiceState :=
  match mapGet st.clients id with
  | none => st
  | some _ =>
    let st1 :=
      if o.removeDur ≤ CLOSE_SESSION then
        (removeSession o.removeExistsFails o.removeDeleteFails st id).1
      else st
    { st1 with
      clients := mapDelete st1.clients id,
      qrCodes := mapDelete st1.qrCodes id }

/-- Wall-clock time spent inside close: each of the three awaited steps ends
at its own duration or at its step timeout, whichever is first. -/
def closeDuration (o : CloseOracle) : Nat :=
  min o.logoutDur CLOSE_OPERATION + min o.destroyDur CLOSE_DESTROY +
    min o.removeDur CLOSE_SESSION

/-- WhatsAppService.closeAll: all registered tenants are closed; the per
tenant close calls are started concurrently (each try/catch swallows its
failure), so the net state is the fold of the independent per-tenant
closes; the allSettled barrier runs under the CLOSE_ALL umbrella timeout. -/
def closeAll (gs : Nat → StateResult) (os : String → CloseOracle)
    (st : ServiceState) : ServiceState :=
  (st.clients.map (fun p => p.1)).foldl (fun acc id => close gs (os id) acc id) st

/-- Wall-clock time of closeAll: the closes run concurrently, so it is the
maximum of the individual close durations over the registered tenants. -/
def closeAllDuration (os : String → CloseOracle) (ids : List String) : Nat :=
  ids.foldl (fun acc id => max acc (closeDuration (os id))) 0

/-- WhatsAppService.broadcastStatus: records the status-update broadcast for
the client (the websocket sink keeps no other state the core reads). -/
def broadcastStatus (st : ServiceState) (id status : String) : ServiceState :=
  { st with lastStatus := mapSet st.lastStatus id status }

end Service

namespace Service

/-- External QR renderer QRCodeGenerator.toDataURL, modelled as an opaque
injective tagging of the raw qr string. -/
def toDataURL (qr : String) : String := "data:image/png;base64," ++ qr

/-- WhatsAppService.validateClientId rejects a falsy id or one whose trim
has length zero, i.e. exactly the ids made only of whitespace. -/
def blankId (id : String) : Bool := id.data.all Char.isWhitespace

/-- Outcome of loginClient: success, invalid client id, or a failed / timed
out initialize. -/
inductive LoginResult
  | okL
  | errInvalidId
  | errInit
deriving DecidableEq, Repr

/-- Client creation part of loginClient: createClient allocates a fresh
protocol handle (modelled by the nextHandle counter), setupEventHandlers
binds the handlers, the handle is stored in the clients Map, and
initializeClient races initialize against INIT_TIMEOUT; initOk false models
a throw or timeout of initialize, which propagates (with waitForReady false
— the call path used by the HTTP login route and the boot restore —
handleLoginError performs no teardown). -/
def createInit (initOk : Bool) (st : ServiceState) (id : String) :
    LoginResult × ServiceState :=
  let st2 := { st with
    clients := mapSet st.clients id st.nextHandle,
    nextHandle := st.nextHandle + 1 }
  (if initOk then .okL else .errInit, st2)

/-- WhatsAppService.loginClient (waitForReady false): validates the id; when
an entry exists and its status is CONNECTED it returns at once with no state
change; when an entry exists but is not connected it closes it and creates a
fresh client; otherwise it creates a fresh client directly. -/
def loginClient (gs : Nat → StateResult) (o : CloseOracle) (initOk : Bool)
    (st : ServiceState) (id : String) : LoginResult × ServiceState :=
  if blankId id then (.errInvalidId, st)
  else
    match mapGet st.clients id with
    | some _ =>
      if getStatus gs st id = "CONNECTED" then (.okL, st)
      else createInit initOk (close gs o st id) id
    | none => createInit initOk st id

/-- Observation of one poll of the readiness wait: the client entry can be
absent from the registry, getState can throw, or it resolves with an
optional state string. -/
inductive PollObs
  | absent
  | threw
  | state (s : Option String)
deriving DecidableEq, Repr

/-- Value of isClientReady at poll t: false when the entry is absent or
getState throws (the catch swallows the error), otherwise whether the state
is CONNECTED. -/
def isClientReadyAt (pollAt : Nat → PollObs) (t : Nat) : Bool :=
  match pollAt t with
  | .state s => s = some "CONNECTED"
  | _ => false

/-- Number of 1-second readiness checks that fit in the 2-minute deadline
(READY_WAIT over READY_CHECK_INTERVAL = 120). -/
def readyWaitPolls : Nat := READY_WAIT / READY_CHECK_INTERVAL

/-- Index of the first poll at which the client reports ready, within the
deadline. -/
def firstReadyIdx (pollAt : Nat → PollObs) : Option Nat :=
  (List.range readyWaitPolls).find? (isClientReadyAt pollAt)

/-- Outcome of waitForClientReady: resolve at a poll index, or reject with
the Ready-check WhatsAppTimeoutError when the deadline elapses. -/
inductive ReadyWaitOutcome
  | resolved (t : Nat)
  | timedOut
deriving DecidableEq, Repr

/-- WhatsAppService.waitForClientReady: polls isClientReady every
READY_CHECK_INTERVAL; on the first ready poll it broadcasts CONNECTED and
resolves; when no poll within the deadline reports ready, the 2-minute timer
broadcasts TIMEOUT, closes the client and rejects with a timeout error.
Throws inside the status check never reject the wait early because
isClientReady catches them and returns false. -/
def waitForClientReady (pollAt : Nat → PollObs) (gs : Nat → StateResult)
    (o : CloseOracle) (st : ServiceState) (id : String) :
    ReadyWaitOutcome × ServiceState :=
  match firstReadyIdx pollAt with
  | some t => (.resolved t, broadcastStatus st id "CONNECTED")
  | none => (.timedOut, close gs o (broadcastStatus st id "TIMEOUT") id)

/-- Number of polls the readiness wait performs before it concludes. -/
def waitPollCount (pollAt : Nat → PollObs) : Nat :=
  match firstReadyIdx pollAt with
  | some t => t
  | none => readyWaitPolls

/-- Events delivered to the handlers bound by setupEventHandlers. -/
inductive ClientEvent
  | qrEv (qr : String)
  | readyEv
  | authFailureEv
  | disconnectedEv
  | loadingEv
deriving DecidableEq, Repr

/-- Per-event context: the restore options captured by the qr handler
closure and the oracles of the close call the handler may perform. -/
structure EvCtx where
  restore : Bool
  sessionEx : Bool
  o : CloseOracle
  gs : Nat → StateResult

/-- Effect of one client event on the service state, from
setupQRHandler / setupReadyHandler / setupAuthFailureHandler /
setupDisconnectHandler / setupLoadingHandler: the qr handler closes the
client in the restore-with-existing-session case and otherwise caches the
rendered code and broadcasts AWAITING_SCAN; the ready handler deletes the
cached code and broadcasts CONNECTED; the auth-failure and disconnect
handlers broadcast AUTH_FAILED resp. DISCONNECTED and close the client; the
loading handler broadcasts LOADING. -/
def clientEventStep (ctx : EvCtx) (id : String) (ev : ClientEvent)
    (st : ServiceState) : ServiceState :=
  match ev with
  | .qrEv q =>
    if ctx.restore && ctx.sessionEx then close ctx.gs ctx.o st id
    else
      broadcastStatus
        { st with qrCodes := mapSet st.qrCodes id (toDataURL q) }
        id "AWAITING_SCAN"
  | .readyEv =>
    broadcastStatus { st with qrCodes := mapDelete st.qrCodes id }
      id "CONNECTED"
  | .authFailureEv =>
    close ctx.gs ctx.o (broadcastStatus st id "AUTH_FAILED") id
  | .disconnectedEv =>
    close ctx.gs ctx.o (broadcastStatus st id "DISCONNECTED") id
  | .loadingEv => broadcastStatus st id "LOADING"

/-- Fold a list of tenant-tagged client events over the service state. -/
def runClientEvents (evs : List (EvCtx × String × ClientEvent))
    (st : ServiceState) : ServiceState :=
  evs.foldl (fun acc e => clientEventStep e.1 e.2.1 e.2.2 acc) st

/-- Service state right after construction: empty Maps and a live store. -/
def emptyService : ServiceState :=
  { clients := [], qrCodes := [], mongoAvailable := true, sessions := [],
    nextHandle := 0, lastStatus := [] }

/-- WhatsAppService.getQRCodeDirect: the cached code or null. -/
def getQRCodeDirect (st : ServiceState) (id : String) : Option String :=
  mapGet st.qrCodes id

/-- Typed errors thrown by ensureClientReady: WhatsAppClientError (client
not found) and WhatsAppNotReadyError. -/
inductive SvcErr
  | notFound (id : String)
  | notReady (id : String)
deriving DecidableEq, Repr

/-- WhatsAppService.ensureClientReady (main service): throws notFound when
the registry has no entry, notReady when the awaited isClientReady is
false. -/
def ensureClientReady (gs : Nat → StateResult) (st : ServiceState)
    (id : String) : Except SvcErr Unit :=
  if (mapGet st.clients id).isNone then .error (.notFound id)
  else if !(isClientReady gs st id) then .error (.notReady id)
  else .ok ()

/-- The part_019 variant of ensureClientReady: the source omits the await on
this.isClientReady, so the test negates a Promise object, which is always
truthy; the negation is therefore constantly false and the notReady branch
is unreachable. -/
def ensureClientReadyVariant (gs : Nat → StateResult) (st : ServiceState)
    (id : String) : Except SvcErr Unit :=
  if (mapGet st.clients id).isNone then .error (.notFound id)
  else if (false : Bool) then .error (.notReady id)
  else .ok ()

/-- WhatsAppService.toChatId: strip every non-digit character from the phone
string and append the chat suffix. -/
def toChatId (phone : String) : String :=
  String.mk (phone.data.filter Char.isDigit) ++ "@c.us"

/-- Observable effect of a successful sendText: the chat id the message is
addressed to and the body handed to client.sendMessage. -/
structure SendEff where
  chatId : String
  body : String
deriving DecidableEq, Repr

/-- WhatsAppService.sendText: guards with ensureClientReady, then sends the
message to toChatId(phone). -/
def sendText (gs : Nat → StateResult) (st : ServiceState)
    (id phone msg : String) : Except SvcErr SendEff :=
  match ensureClientReady gs st id with
  | .error e => .error e
  | .ok _ => .ok { chatId := toChatId phone, body := msg }

/-- WhatsAppService.sendFile: guards with ensureClientReady, then sends the
media to toChatId(phone); the body records the filename handed to
MessageMedia. -/
def sendFile (gs : Nat → StateResult) (st : ServiceState)
    (id phone filename : String) : Except SvcErr SendEff :=
  match ensureClientReady gs st id with
  | .error e => .error e
  | .ok _ => .ok { chatId := toChatId phone, body := filename }

/-- WhatsAppService.isRegisteredUser: guards with ensureClientReady, then
queries the protocol client at toChatId(phone); reg is the oracle for the
external answer per chat id. -/
def isRegisteredUser (reg : String → Bool) (gs : Nat → StateResult)
    (st : ServiceState) (id phone : String) : Except SvcErr Bool :=
  match ensureClientReady gs st id with
  | .error e => .error e
  | .ok _ => .ok (reg (toChatId phone))

end Service

namespace Service

/-- removeSession never touches the clients Map. -/
theorem removeSession_clients (a b : Bool) (st : ServiceState) (id : String) :
    ((removeSession a b st id).1).clients = st.clients := by
  unfold removeSession
  repeat' split
  all_goals rfl

/-- removeSession never touches the qrCodes Map. -/
theorem removeSession_qrCodes (a b : Bool) (st : ServiceState) (id : String) :
    ((removeSession a b st id).1).qrCodes = st.qrCodes := by
  unfold removeSession
  repeat' split
  all_goals rfl

/-- removeSession never touches the broadcast log. -/
theorem removeSession_lastStatus (a b : Bool) (st : ServiceState)
    (id : String) : ((removeSession a b st id).1).lastStatus = st.lastStatus := by
  unfold removeSession
  repeat' split
  all_goals rfl

/-- removeSession never touches the handle counter. -/
theorem removeSession_nextHandle (a b : Bool) (st : ServiceState)
    (id : String) : ((removeSession a b st id).1).nextHandle = st.nextHandle := by
  unfold removeSession
  repeat' split
  all_goals rfl

/-- removeSession never touches the store availability flag. -/
theorem removeSession_mongoAvailable (a b : Bool) (st : ServiceState)
    (id : String) :
    ((removeSession a b st id).1).mongoAvailable = st.mongoAvailable := by
  unfold removeSession
  repeat' split
  all_goals rfl

/-- Lookup in the clients Map after close: the closed id is gone, every
other id is untouched. -/
theorem close_clients_mapGet (gs : Nat → StateResult) (o : CloseOracle)
    (st : ServiceState) (id j : String) :
    mapGet (close gs o st id).clients j =
      if j = id then none else mapGet st.clients j := by
  unfold close
  cases hm : mapGet st.clients id with
  | none =>
    by_cases hj : j = id
    · simp [hj, hm]
    · simp [hj]
  | some hh =>
    simp only
    by_cases hr : o.removeDur ≤ CLOSE_SESSION
    · simp [hr, mapGet_mapDelete, removeSession_clients]
    · simp [hr, mapGet_mapDelete]

/-- Lookup in the qrCodes Map after close, for a registered client: the
closed id's cached code is gone. -/
theorem close_qrCodes_self (gs : Nat → StateResult) (o : CloseOracle)
    (st : ServiceState) (id : String)
    (hm : (mapGet st.clients id).isSome = true) :
    mapGet (close gs o st id).qrCodes id = none := by
  unfold close
  cases hg : mapGet st.clients id with
  | none => rw [hg] at hm; simp at hm
  | some hh =>
    simp only
    by_cases hr : o.removeDur ≤ CLOSE_SESSION
    · simp [hr, mapGet_mapDelete, removeSession_qrCodes]
    · simp [hr, mapGet_mapDelete]

/-- Lookup in the qrCodes Map after close, for any other id: untouched. -/
theorem close_qrCodes_other (gs : Nat → StateResult) (o : CloseOracle)
    (st : ServiceState) (id j : String) (hj : ¬(j = id)) :
    mapGet (close gs o st id).qrCodes j = mapGet st.qrCodes j := by
  unfold close
  cases hg : mapGet st.clients id with
  | none => rfl
  | some hh =>
    simp only
    by_cases hr : o.removeDur ≤ CLOSE_SESSION
    · simp [hr, mapGet_mapDelete, removeSession_qrCodes, hj]
    · simp [hr, mapGet_mapDelete, hj]

/-- close never touches the broadcast log. -/
theorem close_lastStatus (gs : Nat → StateResult) (o : CloseOracle)
    (st : ServiceState) (id : String) :
    (close gs o st id).lastStatus = st.lastStatus := by
  unfold close
  cases hm : mapGet st.clients id with
  | none => rfl
  | some hh =>
    simp only
    by_cases hr : o.removeDur ≤ CLOSE_SESSION
    · simp [hr, removeSession_lastStatus]
    · simp [hr]

/-- close never touches the handle counter. -/
theorem close_nextHandle (gs : Nat → StateResult) (o : CloseOracle)
    (st : ServiceState) (id : String) :
    (close gs o st id).nextHandle = st.nextHandle := by
  unfold close
  cases hm : mapGet st.clients id with
  | none => rfl
  | some hh =>
    simp only
    by_cases hr : o.removeDur ≤ CLOSE_SESSION
    · simp [hr, removeSession_nextHandle]
    · simp [hr]

/-- A successful lookup comes from an entry of the association list. -/
theorem mapGet_some_mem {m : List (String × β)} {k : String} {v : β}
    (h : mapGet m k = some v) : (k, v) ∈ m := by
  induction m with
  | nil => simp [mapGet] at h
  | cons p m ih =>
    by_cases hp : p.1 = k
    · simp only [mapGet, hp, if_pos] at h
      have hv : p.2 = v := Option.some.inj h
      have : p = (k, v) := Prod.ext hp hv
      rw [← this]
      exact List.mem_cons_self p m
    · simp only [mapGet, hp, if_neg, ite_false] at h
      exact List.mem_cons_of_mem p (ih h)

end Service

namespace Service

/-- Pairing-code invariant at the service level: whenever the latest status
broadcast for a tenant is CONNECTED, the direct pairing-code query returns
null. -/
def qrInv (st : ServiceState) : Prop :=
  ∀ id, mapGet st.lastStatus id = some "CONNECTED" →
    getQRCodeDirect st id = none

/-- close of an unregistered id is a no-op. -/
theorem close_absent (gs : Nat → StateResult) (o : CloseOracle)
    (st : ServiceState) (id : String)
    (hm : mapGet st.clients id = none) : close gs o st id = st := by
  unfold close
  rw [hm]

/-- close preserves the pairing-code invariant. -/
theorem close_qrInv (gs : Nat → StateResult) (o : CloseOracle)
    (st : ServiceState) (id : String) (h : qrInv st) :
    qrInv (close gs o st id) := by
  intro j hj
  rw [close_lastStatus gs o st id] at hj
  by_cases hji : j = id
  · subst hji
    cases hg : mapGet st.clients j with
    | none =>
      rw [close_absent gs o st j hg]
      exact h j hj
    | some hh =>
      unfold getQRCodeDirect
      exact close_qrCodes_self gs o st j (by rw [hg]; rfl)
  · unfold getQRCodeDirect
    rw [close_qrCodes_other gs o st id j hji]
    exact h j hj

/-- broadcastStatus with a status other than CONNECTED preserves the
pairing-code invariant. -/
theorem broadcast_qrInv (st : ServiceState) (id s : String)
    (hs : ¬(s = "CONNECTED")) (h : qrInv st) :
    qrInv (broadcastStatus st id s) := by
  intro j hj
  simp only [broadcastStatus] at hj
  rw [mapGet_mapSet] at hj
  by_cases hji : j = id
  · rw [if_pos hji] at hj
    exact absurd (Option.some.inj hj) hs
  · rw [if_neg hji] at hj
    exact h j hj

/-- Every client event handler preserves the pairing-code invariant: the qr
handler either closes the client (restore case) or caches the code under an
AWAITING_SCAN broadcast, the ready handler deletes the code before it
broadcasts CONNECTED, and the failure handlers broadcast a non-CONNECTED
status and close. -/
theorem clientEventStep_qrInv (ctx : EvCtx) (id : String) (ev : ClientEvent)
    (st : ServiceState) (h : qrInv st) :
    qrInv (clientEventStep ctx id ev st) := by
  cases ev with
  | qrEv q =>
    by_cases hrs : (ctx.restore && ctx.sessionEx) = true
    · simp only [clientEventStep]
      rw [if_pos hrs]
      exact close_qrInv ctx.gs ctx.o st id h
    · simp only [clientEventStep]
      rw [if_neg hrs]
      intro j hj
      simp only [broadcastStatus] at hj
      rw [mapGet_mapSet] at hj
      by_cases hji : j = id
      · rw [if_pos hji] at hj
        exact absurd (Option.some.inj hj) (by decide)
      · rw [if_neg hji] at hj
        unfold getQRCodeDirect
        simp only [broadcastStatus]
        rw [mapGet_mapSet, if_neg hji]
        exact h j hj
  | readyEv =>
    intro j hj
    simp only [clientEventStep, broadcastStatus] at hj
    rw [mapGet_mapSet] at hj
    by_cases hji : j = id
    · subst hji
      unfold getQRCodeDirect
      simp only [clientEventStep, broadcastStatus]
      rw [mapGet_mapDelete, if_pos rfl]
    · rw [if_neg hji] at hj
      unfold getQRCodeDirect
      simp only [clientEventStep, broadcastStatus]
      rw [mapGet_mapDelete, if_neg hji]
      exact h j hj
  | authFailureEv =>
    exact close_qrInv ctx.gs ctx.o (broadcastStatus st id "AUTH_FAILED") id
      (broadcast_qrInv st id "AUTH_FAILED" (by decide) h)
  | disconnectedEv =>
    exact close_qrInv ctx.gs ctx.o (broadcastStatus st id "DISCONNECTED") id
      (broadcast_qrInv st id "DISCONNECTED" (by decide) h)
  | loadingEv =>
    exact broadcast_qrInv st id "LOADING" (by decide) h

/-- The pairing-code invariant is preserved along any event trace. -/
theorem runClientEvents_qrInv_aux (evs : List (EvCtx × String × ClientEvent))
    (st : ServiceState) (h : qrInv st) : qrInv (runClientEvents evs st) := by
  induction evs generalizing st with
  | nil => exact h
  | cons e evs ih =>
    exact ih (clientEventStep e.1 e.2.1 e.2.2 st)
      (clientEventStep_qrInv e.1 e.2.1 e.2.2 st h)

/-- The fresh service state satisfies the pairing-code invariant. -/
theorem emptyService_qrInv : qrInv emptyService := by
  intro j hj
  simp [emptyService, mapGet] at hj

end Service

namespace WAClient

/-- Pairing-code invariant of the Baileys client: a connected session holds
no pairing code. -/
def pairingInv (s : ClientState) : Prop :=
  s.status = WAStatus.connected → s.pairingCode = none

/-- clearAuthState never changes the status field. -/
theorem clearAuthState_status (r : Bool) (s : ClientState) :
    (clearAuthState r s).status = s.status := by
  unfold clearAuthState
  split
  · rfl
  · rfl

/-- handleConnectionUpdate (including the disconnect branch) preserves the
pairing-code invariant: the only branch that sets status connected also
clears the pairing code, and every other branch sets a status other than
connected or leaves the state alone. -/
theorem handleConnectionUpdate_pairingInv (redisOk : Bool) (u : ConnUpdate)
    (s : ClientState) (h : pairingInv s) :
    pairingInv (handleConnectionUpdate redisOk u s).state := by
  unfold pairingInv handleConnectionUpdate handleDisconnect
  dsimp only
  repeat' split
  all_goals intro hcon
  all_goals first
    | rfl
    | exact h hcon
    | (rw [clearAuthState_status] at hcon; simp at hcon)
    | simp [start] at hcon
    | simp at hcon

/-- The pairing-code invariant is preserved along any connection.update
trace. -/
theorem runUpdates_pairingInv (redisOk : Bool) (us : List ConnUpdate)
    (s : ClientState) (h : pairingInv s) :
    pairingInv (runUpdates redisOk us s) := by
  induction us generalizing s with
  | nil => exact h
  | cons u us ih =>
    exact ih (handleConnectionUpdate redisOk u s).state
      (handleConnectionUpdate_pairingInv redisOk u s h)

/-- A freshly constructed and started client satisfies the invariant. -/
theorem start_initClient_pairingInv (id : String) (keys : List String) :
    pairingInv (start (initClient id keys)) := by
  intro hcon
  simp [start, initClient] at hcon

end WAClient

namespace Service

/-- Close oracle in which every step completes immediately and the store
calls succeed. -/
def quickOracle : CloseOracle :=
  { logoutDur := 0, destroyDur := 0, removeDur := 0,
    removeExistsFails := false, removeDeleteFails := false }

/-- Sample registry holding tenant t1 with handle 0 and its persisted
session record. -/
def svcOne : ServiceState :=
  { clients := [("t1", 0)], qrCodes := [], mongoAvailable := true,
    sessions := ["RemoteAuth-t1"], nextHandle := 1, lastStatus := [] }

/-- getState oracle that always reports CONNECTED. -/
def gsConnected : Nat → StateResult := fun _ => .ok (some "CONNECTED")

/-- getState oracle that always reports the OPENING transition state. -/
def gsOpening : Nat → StateResult := fun _ => .ok (some "OPENING")

/-- getState oracle that always throws. -/
def gsThrows : Nat → StateResult := fun _ => .threw

/-- Poll oracle for a readiness wait during which every status check
throws. -/
def pollAlwaysThrew : Nat → PollObs := fun _ => .threw

/-- Freshness invariant of the handle counter: every registered handle was
allocated below the counter. -/
def handlesWF (st : ServiceState) : Prop :=
  ∀ p ∈ st.clients, p.2 < st.nextHandle

end Service

/-- C3 counterexample: during a readiness wait in which every status check
fails (getState throws at every poll), the wait does not reject at the
failing check — isClientReady swallows the error — and instead runs all 120
polls and concludes with the timeout rejection; the claim that the wait
rejects immediately when the status check fails is false on this input. -/
theorem ready_wait_not_rejected_early :
    (Service.waitForClientReady Service.pollAlwaysThrew Service.gsThrows
        Service.quickOracle Service.svcOne "t1").1 =
      Service.ReadyWaitOutcome.timedOut ∧
    Service.waitPollCount Service.pollAlwaysThrew = 120 ∧
    ¬(Service.waitPollCount Service.pollAlwaysThrew = 0) := by
  refine ⟨by decide, by decide, by decide⟩

/-- C3 (amended): when no poll within the 2-minute bound (120 polls at 1
second) observes CONNECTED, the readiness wait rejects with the timeout
error, broadcasts TIMEOUT and tears the session down, so a subsequent
getStatus returns NOT_INITIALIZED; failures of the status check during the
wait are swallowed by isClientReady (they count as not ready) and polling
continues — the wait never rejects early on a failing status check, only a
CONNECTED observation ends it before the deadline. -/
theorem ready_wait_timeout_teardown
    (pollAt : Nat → Service.PollObs) (gs : Nat → Service.StateResult)
    (o : Service.CloseOracle) (st : Service.ServiceState) (id : String)
    (hnone : Service.firstReadyIdx pollAt = none) :
    (Service.waitForClientReady pollAt gs o st id).1 =
      Service.ReadyWaitOutcome.timedOut ∧
    Service.getStatus gs (Service.waitForClientReady pollAt gs o st id).2 id =
      "NOT_INITIALIZED" ∧
    Service.mapGet (Service.waitForClientReady pollAt gs o st id).2.lastStatus
      id = some "TIMEOUT" ∧
    (∀ t, Service.isClientReadyAt Service.pollAlwaysThrew t = false) ∧
    Service.READY_WAIT = 120000 ∧ Service.READY_CHECK_INTERVAL = 1000 ∧
    Service.readyWaitPolls = 120 := by
  have hred : Service.waitForClientReady pollAt gs o st id =
      (Service.ReadyWaitOutcome.timedOut,
        Service.close gs o (Service.broadcastStatus st id "TIMEOUT") id) := by
    unfold Service.waitForClientReady
    rw [hnone]
  rw [hred]
  refine ⟨rfl, ?_, ?_, fun t => rfl, rfl, rfl, rfl⟩
  · have hc := Service.close_clients_mapGet gs o
      (Service.broadcastStatus st id "TIMEOUT") id id
    rw [if_pos rfl] at hc
    unfold Service.getStatus
    rw [hc]
  · rw [Service.close_lastStatus]
    simp only [Service.broadcastStatus]
    rw [Service.mapGet_mapSet, if_pos rfl]

/-- C3 witness: the amended theorem applied to the all-throwing poll oracle
on the sample registry. -/
theorem ready_wait_timeout_teardown_witness :
    Service.firstReadyIdx Service.pollAlwaysThrew = none ∧
    Service.getStatus Service.gsThrows
      (Service.waitForClientReady Service.pollAlwaysThrew Service.gsThrows
        Service.quickOracle Service.svcOne "t1").2 "t1" = "NOT_INITIALIZED" :=
  ⟨by decide,
   (ready_wait_timeout_teardown Service.pollAlwaysThrew Service.gsThrows
      Service.quickOracle Service.svcOne "t1" (by decide)).2.1⟩

/-- C4: a login on a registered tenant whose status is CONNECTED is a no-op
— the whole service state, hence the status and the identity of the stored
protocol handle, is unchanged; a login on a registered tenant that is not
CONNECTED first closes the existing session (its registry entry is removed)
and then registers a freshly allocated handle, different from the old one. -/
theorem login_idempotent_when_connected
    (gs : Nat → Service.StateResult) (o : Service.CloseOracle) (initOk : Bool)
    (st : Service.ServiceState) (id : String) (h : Nat) :
    (Service.blankId id = false → Service.mapGet st.clients id = some h →
      Service.getStatus gs st id = "CONNECTED" →
      Service.loginClient gs o initOk st id = (.okL, st)) ∧
    (Service.blankId id = false → Service.handlesWF st →
      Service.mapGet st.clients id = some h →
      ¬(Service.getStatus gs st id = "CONNECTED") →
      Service.mapGet ((Service.loginClient gs o initOk st id).2).clients id =
        some st.nextHandle ∧
      ¬(st.nextHandle = h) ∧
      Service.mapGet (Service.close gs o st id).clients id = none ∧
      (Service.loginClient gs o initOk st id).2 =
        (Service.createInit initOk (Service.close gs o st id) id).2) := by
  constructor
  · intro hb hm hs
    simp [Service.loginClient, hb, hm, hs]
  · intro hb hwf hm hs
    have hred : Service.loginClient gs o initOk st id =
        Service.createInit initOk (Service.close gs o st id) id := by
      simp [Service.loginClient, hb, hm, hs]
    refine ⟨?_, ?_, ?_, by rw [hred]⟩
    · rw [hred]
      unfold Service.createInit
      simp only
      rw [Service.mapGet_mapSet, if_pos rfl, Service.close_nextHandle]
    · have hlt := hwf (id, h) (Service.mapGet_some_mem hm)
      intro he
      rw [he] at hlt
      exact lt_irrefl h hlt
    · rw [Service.close_clients_mapGet, if_pos rfl]

/-- C4 witness: the no-op branch on a connected sample tenant and the
recreate branch on the same tenant observed in a transition state. -/
theorem login_idempotent_when_connected_witness :
    Service.loginClient Service.gsConnected Service.quickOracle true
      Service.svcOne "t1" = (.okL, Service.svcOne) ∧
    Service.mapGet ((Service.loginClient Service.gsOpening
      Service.quickOracle true Service.svcOne "t1").2).clients "t1" =
        some Service.svcOne.nextHandle :=
  ⟨(login_idempotent_when_connected Service.gsConnected Service.quickOracle
      true Service.svcOne "t1" 0).1 (by decide) (by decide) (by decide),
   ((login_idempotent_when_connected Service.gsOpening Service.quickOracle
      true Service.svcOne "t1" 0).2 (by decide)
      (by unfold Service.handlesWF; decide) (by decide) (by decide)).1⟩

/-- C5: in the main service, sendText, sendFile and isRegisteredUser throw
the not-found WhatsAppClientError when the tenant has no registry entry and
WhatsAppNotReadyError when the entry exists but the client is not CONNECTED
— in both cases the call errors instead of silently producing a send.  In
the part_019 variant, however, ensureClientReady omits the await on
isClientReady, so on the same not-connected input it resolves successfully
where the main service throws NotReady. -/
theorem ensure_ready_guards_sends
    (gs : Nat → Service.StateResult) (st : Service.ServiceState)
    (id phone msg filename : String) (reg : String → Bool) :
    (Service.mapGet st.clients id = none →
      Service.sendText gs st id phone msg = .error (.notFound id) ∧
      Service.sendFile gs st id phone filename = .error (.notFound id) ∧
      Service.isRegisteredUser reg gs st id phone = .error (.notFound id)) ∧
    ((Service.mapGet st.clients id).isSome = true →
      Service.isClientReady gs st id = false →
      Service.sendText gs st id phone msg = .error (.notReady id) ∧
      Service.sendFile gs st id phone filename = .error (.notReady id) ∧
      Service.isRegisteredUser reg gs st id phone = .error (.notReady id)) ∧
    Service.ensureClientReady Service.gsOpening Service.svcOne "t1" =
      .error (.notReady "t1") ∧
    Service.ensureClientReadyVariant Service.gsOpening Service.svcOne "t1" =
      .ok () := by
  refine ⟨?_, ?_, rfl, rfl⟩
  · intro hm
    have he : Service.ensureClientReady gs st id = .error (.notFound id) := by
      simp [Service.ensureClientReady, hm]
    simp [Service.sendText, Service.sendFile, Service.isRegisteredUser, he]
  · intro hm hr
    have he : Service.ensureClientReady gs st id = .error (.notReady id) := by
      unfold Service.ensureClientReady
      cases hg : Service.mapGet st.clients id with
      | none => rw [hg] at hm; simp at hm
      | some hh => simp [hg, hr]
    simp [Service.sendText, Service.sendFile, Service.isRegisteredUser, he]

/-- C5 witness: the guard theorem applied to the sample registry — a missing
tenant and a registered but not connected tenant. -/
theorem ensure_ready_guards_sends_witness :
    Service.sendText Service.gsConnected Service.svcOne "nobody" "+1" "hi" =
      .error (.notFound "nobody") ∧
    Service.sendText Service.gsOpening Service.svcOne "t1" "+1" "hi" =
      .error (.notReady "t1") :=
  ⟨((ensure_ready_guards_sends Service.gsConnected Service.svcOne "nobody"
      "+1" "hi" "f.pdf" (fun _ => true)).1 (by decide)).1,
   ((ensure_ready_guards_sends Service.gsOpening Service.svcOne "t1"
      "+1" "hi" "f.pdf" (fun _ => true)).2.1 (by decide) (by decide)).1⟩

/-- Helper bound: the three close steps are each capped by their own step
timeout by the Promise.race, so close completes within the sum of the step
timeouts. -/
theorem closeDuration_le (o : Service.CloseOracle) :
    Service.closeDuration o ≤
      Service.CLOSE_OPERATION + Service.CLOSE_DESTROY +
        Service.CLOSE_SESSION := by
  unfold Service.closeDuration
  exact Nat.add_le_add
    (Nat.add_le_add (Nat.min_le_right _ _) (Nat.min_le_right _ _))
    (Nat.min_le_right _ _)

/-- C6: whenever the tenant has a registry entry, close removes the
in-memory client entry and the cached pairing code unconditionally —
whatever the step oracles do (failures, store errors, hangs) — and the time
spent inside close is bounded by the sum of the three step timeouts (20
seconds), below the closeAll umbrella timeout. -/
theorem close_always_removes_memory_state
    (gs : Nat → Service.StateResult) (o : Service.CloseOracle)
    (st : Service.ServiceState) (id : String)
    (hm : (Service.mapGet st.clients id).isSome = true) :
    Service.mapGet (Service.close gs o st id).clients id = none ∧
    Service.mapGet (Service.close gs o st id).qrCodes id = none ∧
    Service.closeDuration o ≤
      Service.CLOSE_OPERATION + Service.CLOSE_DESTROY +
        Service.CLOSE_SESSION ∧
    Service.CLOSE_OPERATION + Service.CLOSE_DESTROY + Service.CLOSE_SESSION ≤
      Service.CLOSE_ALL := by
  refine ⟨?_, Service.close_qrCodes_self gs o st id hm, closeDuration_le o,
    by decide⟩
  rw [Service.close_clients_mapGet, if_pos rfl]

/-- C6 witness: close on the sample registry with an oracle whose
removeSession step hangs past its timeout still removes the entry. -/
theorem close_always_removes_memory_state_witness :
    ((Service.mapGet Service.svcOne.clients "t1").isSome = true) ∧
    Service.mapGet
      (Service.close Service.gsConnected
        { logoutDur := 0, destroyDur := 0, removeDur := 999999999,
          removeExistsFails := false, removeDeleteFails := false }
        Service.svcOne "t1").clients "t1" = none :=
  ⟨by decide,
   (close_always_removes_memory_state Service.gsConnected
      { logoutDur := 0, destroyDur := 0, removeDur := 999999999,
        removeExistsFails := false, removeDeleteFails := false }
      Service.svcOne "t1" (by decide)).1⟩

/-- Absence of a registry entry is preserved by any close. -/
theorem close_preserves_absent (gs : Nat → Service.StateResult)
    (o : Service.CloseOracle) (st : Service.ServiceState) (i j : String)
    (h : Service.mapGet st.clients j = none) :
    Service.mapGet (Service.close gs o st i).clients j = none := by
  rw [Service.close_clients_mapGet]
  by_cases hji : j = i
  · rw [if_pos hji]
  · rw [if_neg hji]; exact h

/-- Absence of a registry entry is preserved by a fold of closes. -/
theorem foldClose_absent (gs : Nat → Service.StateResult)
    (os : String → Service.CloseOracle) (l : List String)
    (st : Service.ServiceState) (j : String)
    (h : Service.mapGet st.clients j = none) :
    Service.mapGet
      ((l.foldl (fun acc id => Service.close gs (os id) acc id) st)).clients
      j = none := by
  induction l generalizing st with
  | nil => exact h
  | cons i l ih =>
    exact ih (Service.close gs (os i) st i)
      (close_preserves_absent gs (os i) st i j h)

/-- Every id in the processed list ends up removed by the fold of closes. -/
theorem foldClose_mem (gs : Nat → Service.StateResult)
    (os : String → Service.CloseOracle) (l : List String)
    (st : Service.ServiceState) (j : String) (h : j ∈ l) :
    Service.mapGet
      ((l.foldl (fun acc id => Service.close gs (os id) acc id) st)).clients
      j = none := by
  induction l generalizing st with
  | nil => cases h
  | cons i l ih =>
    by_cases hji : j = i
    · subst hji
      exact foldClose_absent gs os l (Service.close gs (os j) st j) j
        (by rw [Service.close_clients_mapGet, if_pos rfl])
    · have hl : j ∈ l := by
        cases h with
        | head => exact absurd rfl hji
        | tail _ hlm => exact hlm
      exact ih (Service.close gs (os i) st i) hl

/-- The concurrent maximum of the close durations stays under the umbrella
timeout. -/
theorem closeAllDuration_le (os : String → Service.CloseOracle)
    (ids : List String) :
    Service.closeAllDuration os ids ≤ Service.CLOSE_ALL := by
  unfold Service.closeAllDuration
  have haux : ∀ (l : List String) (acc : Nat), acc ≤ Service.CLOSE_ALL →
      List.foldl (fun a id => max a (Service.closeDuration (os id))) acc l ≤
        Service.CLOSE_ALL := by
    intro l
    induction l with
    | nil => intro acc h; exact h
    | cons i l ih =>
      intro acc h
      exact ih _ (max_le h (le_trans (closeDuration_le (os i)) (by decide)))
  exact haux ids 0 (by decide)

/-- C7: closeAll removes every tenant from the registry whatever the step
oracles of the individual teardowns do — in particular, when one tenant's
steps hang (arbitrarily large durations, each cut off by its step timeout)
the other tenants are still removed — and since the closes run concurrently
its wall-clock time, the maximum of the per-tenant close durations, stays
within the CLOSE_ALL umbrella timeout. -/
theorem closeAll_removes_all_tenants (gs : Nat → Service.StateResult)
    (os : String → Service.CloseOracle) (st : Service.ServiceState)
    (j : String) :
    Service.mapGet (Service.closeAll gs os st).clients j = none ∧
    Service.closeAllDuration os (st.clients.map (fun p => p.1)) ≤
      Service.CLOSE_ALL := by
  constructor
  · unfold Service.closeAll
    cases hg : Service.mapGet st.clients j with
    | none => exact foldClose_absent gs os _ st j hg
    | some v =>
      exact foldClose_mem gs os _ st j
        (List.mem_map_of_mem (fun p => p.1) (Service.mapGet_some_mem hg))
  · exact closeAllDuration_le os _

namespace Service

/-- Event context for a plain (non-restore) login flow. -/
def ctxPlain : EvCtx :=
  { restore := false, sessionEx := false, o := quickOracle, gs := gsConnected }

/-- Sample event trace: tenant t1 receives a qr code and then becomes
ready. -/
def sampleEvents : List (EvCtx × String × ClientEvent) :=
  [(ctxPlain, "t1", ClientEvent.qrEv "RAWQR"),
   (ctxPlain, "t1", ClientEvent.readyEv)]

/-- removeSession returned true only on its success path, whose store effect
filters out the session name. -/
theorem removeSession_success_sessions (a b : Bool) (st : ServiceState)
    (id : String) (h : (removeSession a b st id).2 = true) :
    (removeSession a b st id).1.sessions =
      st.sessions.filter (fun sn => !(sn == getSessionName id)) := by
  unfold removeSession at h ⊢
  split_ifs at h ⊢
  rfl

end Service

/-- C8: across every trace of client events starting from the fresh service
state, whenever the latest broadcast status of a tenant is CONNECTED the
direct pairing-code query returns null — the ready handler deletes the
cached code before broadcasting CONNECTED, the qr handler broadcasts
AWAITING_SCAN, and the failure handlers broadcast non-CONNECTED statuses
and close; likewise, in the Baileys client, along every connection.update
trace of a started fresh client, a connected session holds no pairing code
(the open branch clears it). -/
theorem connected_implies_no_pairing_code :
    (∀ evs : List (Service.EvCtx × String × Service.ClientEvent),
      Service.qrInv (Service.runClientEvents evs Service.emptyService)) ∧
    (∀ (redisOk : Bool) (us : List WAClient.ConnUpdate) (id : String)
        (keys : List String),
      WAClient.pairingInv (WAClient.runUpdates redisOk us
        (WAClient.start (WAClient.initClient id keys)))) := by
  constructor
  · intro evs
    exact Service.runClientEvents_qrInv_aux evs Service.emptyService
      Service.emptyService_qrInv
  · intro redisOk us id keys
    exact WAClient.runUpdates_pairingInv redisOk us _
      (WAClient.start_initClient_pairingInv id keys)

/-- C8 witness: the invariant applied to a concrete qr-then-ready trace (the
latest broadcast is CONNECTED and the code is gone) and to a concrete open
update on a started client. -/
theorem connected_implies_no_pairing_code_witness :
    Service.mapGet (Service.runClientEvents Service.sampleEvents
      Service.emptyService).lastStatus "t1" = some "CONNECTED" ∧
    Service.getQRCodeDirect (Service.runClientEvents Service.sampleEvents
      Service.emptyService) "t1" = none ∧
    (WAClient.runUpdates true [⟨none, some WAClient.ConnState.connOpen, none⟩]
      (WAClient.start (WAClient.initClient "t1" ["wa:t1:creds"]))).status =
        WAClient.WAStatus.connected ∧
    (WAClient.runUpdates true [⟨none, some WAClient.ConnState.connOpen, none⟩]
      (WAClient.start (WAClient.initClient "t1" ["wa:t1:creds"]))).pairingCode =
        none :=
  ⟨by decide,
   connected_implies_no_pairing_code.1 Service.sampleEvents "t1" (by decide),
   by decide,
   connected_implies_no_pairing_code.2 true
      [⟨none, some WAClient.ConnState.connOpen, none⟩] "t1" ["wa:t1:creds"]
      (by decide)⟩

/-- C9: removeSession returns true exactly when the store is reachable, its
calls succeed and a record exists (which it then deletes); in every other
case — store unavailable, a store call throws, or no record — it returns
false with the state untouched instead of throwing; it never modifies
anything outside the sessions store; and deleting twice in a row yields
false the second time, whatever the second call's failure flags. -/
theorem removeSession_idempotent_total (a b : Bool)
    (st : Service.ServiceState) (id : String) :
    ((Service.removeSession a b st id).2 = true ↔
      (st.mongoAvailable = true ∧ a = false ∧ b = false ∧
        Service.sessionExists st id = true)) ∧
    ((Service.removeSession a b st id).2 = false →
      (Service.removeSession a b st id).1 = st) ∧
    ((Service.removeSession a b st id).1).clients = st.clients ∧
    ((Service.removeSession a b st id).1).qrCodes = st.qrCodes ∧
    ((Service.removeSession a b st id).1).lastStatus = st.lastStatus ∧
    ((Service.removeSession a b st id).1).nextHandle = st.nextHandle ∧
    ((Service.removeSession a b st id).2 = true → ∀ c d : Bool,
      (Service.removeSession c d
        (Service.removeSession a b st id).1 id).2 = false) := by
  refine ⟨?_, ?_,
    Service.removeSession_clients a b st id,
    Service.removeSession_qrCodes a b st id,
    Service.removeSession_lastStatus a b st id,
    Service.removeSession_nextHandle a b st id, ?_⟩
  · cases hm : st.mongoAvailable <;> cases a <;> cases b <;>
      cases hs : Service.sessionExists st id <;>
      simp [Service.removeSession, hm, hs]
  · cases hm : st.mongoAvailable <;> cases a <;> cases b <;>
      cases hs : Service.sessionExists st id <;>
      simp [Service.removeSession, hm, hs]
  · intro htrue c d
    have hns : Service.sessionExists (Service.removeSession a b st id).1 id =
        false := by
      unfold Service.sessionExists
      rw [Service.removeSession_success_sessions a b st id htrue]
      exact any_filter_not_eq_false _ _
    have hstm : st.mongoAvailable = true := by
      cases hmv : st.mongoAvailable with
      | false =>
        exfalso
        unfold Service.removeSession at htrue
        rw [hmv] at htrue
        simp at htrue
      | true => rfl
    have hm2 : (Service.removeSession a b st id).1.mongoAvailable = true := by
      rw [Service.removeSession_mongoAvailable, hstm]
    generalize hX : (Service.removeSession a b st id).1 = X at hns hm2
    cases c <;> cases d <;> simp [Service.removeSession, hm2, hns]

/-- C9 witness: deleting the persisted record of the sample tenant succeeds
once and returns false on the immediate second attempt. -/
theorem removeSession_idempotent_total_witness :
    (Service.removeSession false false Service.svcOne "t1").2 = true ∧
    (Service.removeSession false false
      (Service.removeSession false false Service.svcOne "t1").1 "t1").2 =
        false :=
  ⟨by decide,
   (removeSession_idempotent_total false false Service.svcOne "t1").2.2.2.2.2.2
      (by decide) false false⟩

/-- C10: toChatId keeps exactly the digit characters of the phone string and
appends the chat suffix, so any two phone inputs with the same digit
sequence map to the same chat id; sendText, sendFile and isRegisteredUser
all address the chat id computed by toChatId; and the two sample spellings
of the same number produce the same chat id. -/
theorem sends_normalize_phone_to_chat_id
    (p1 p2 : String) (gs : Nat → Service.StateResult)
    (st : Service.ServiceState) (id msg filename : String)
    (reg : String → Bool) (eff : Service.SendEff) (b : Bool) :
    (p1.data.filter Char.isDigit = p2.data.filter Char.isDigit →
      Service.toChatId p1 = Service.toChatId p2) ∧
    (Service.sendText gs st id p1 msg = .ok eff →
      eff.chatId = Service.toChatId p1) ∧
    (Service.sendFile gs st id p1 filename = .ok eff →
      eff.chatId = Service.toChatId p1) ∧
    (Service.isRegisteredUser reg gs st id p1 = .ok b →
      b = reg (Service.toChatId p1)) ∧
    Service.toChatId "+92 300-1234567" = "923001234567@c.us" ∧
    Service.toChatId "923001234567" = "923001234567@c.us" := by
  refine ⟨?_, ?_, ?_, ?_, by decide, by decide⟩
  · intro h
    unfold Service.toChatId
    rw [h]
  · intro h
    unfold Service.sendText at h
    cases he : Service.ensureClientReady gs st id with
    | error e => rw [he] at h; simp at h
    | ok u =>
      rw [he] at h
      exact (congrArg Service.SendEff.chatId (Except.ok.inj h)).symm
  · intro h
    unfold Service.sendFile at h
    cases he : Service.ensureClientReady gs st id with
    | error e => rw [he] at h; simp at h
    | ok u =>
      rw [he] at h
      exact (congrArg Service.SendEff.chatId (Except.ok.inj h)).symm
  · intro h
    unfold Service.isRegisteredUser at h
    cases he : Service.ensureClientReady gs st id with
    | error e => rw [he] at h; simp at h
    | ok u =>
      rw [he] at h
      exact (Except.ok.inj h).symm

/-- C10 witness: two spellings of the same number share the chat id, and a
concrete successful sendText addresses exactly that chat id. -/
theorem sends_normalize_phone_to_chat_id_witness :
    Service.toChatId "+92 300-1234567" = Service.toChatId "923001234567" ∧
    ({ chatId := "923001234567@c.us", body := "hi" } :
        Service.SendEff).chatId = Service.toChatId "+92 300-1234567" :=
  ⟨(sends_normalize_phone_to_chat_id "+92 300-1234567" "923001234567"
      Service.gsConnected Service.svcOne "t1" "hi" "f.pdf" (fun _ => true)
      { chatId := "923001234567@c.us", body := "hi" } true).1 (by decide),
   (sends_normalize_phone_to_chat_id "+92 300-1234567" "923001234567"
      Service.gsConnected Service.svcOne "t1" "hi" "f.pdf" (fun _ => true)
      { chatId := "923001234567@c.us", body := "hi" } true).2.1 rfl⟩
